import Mathlib

/-!
Verification development for the `rag-app-agent-llm` dashboard.

The definitions below are a shallow embedding of the TypeScript dashboard
components (`ChatComponent.tsx`, `CommunicationComponent.tsx`,
`KnowledgeBaseComponent.tsx`, the agent form) and, where the backend code is
not part of the visible source, of the behaviour the specification describes
for it.  React `useState` state is modelled as an explicit state record;
each handler becomes a pure state-transition function; the outcome of a
backend `fetch` is passed in as an explicit parameter (`Option _`, `none`
meaning the request failed or returned a non-ok status).
-/

namespace RagApp

/-- A chat message as displayed by the chat views.  Mirrors the TS type
`{ id?: number; role: 'user' | 'assistant'; content: string; pending?: boolean }`;
an absent `pending` field is modelled as `false`. -/
structure Message where
  id : Option Nat := none
  role : String
  content : String
  pending : Bool := false
deriving Repr, DecidableEq

/-- Body of a successful `POST /chat/chat` response, of which the component
reads `content` and `id`. -/
structure ChatResponse where
  id : Nat
  content : String
deriving Repr, DecidableEq

/-- The character list of JavaScript's `s.trim()`: leading and trailing
whitespace removed.  Modelled over the char-list representation so that it
evaluates inside the kernel (`String.trim` itself is defined by
well-founded recursion on byte positions). -/
def trimmed (s : String) : List Char :=
  ((s.data.dropWhile Char.isWhitespace).reverse.dropWhile
    Char.isWhitespace).reverse

/-- JS truthiness of `!s.trim()`: the string is empty or whitespace-only. -/
def isBlank (s : String) : Bool :=
  (trimmed s).isEmpty

namespace Chat

/-- Owner kind of a conversation: created under a single agent or under a
communication group.  Ghost data used to state the routing invariant. -/
inductive OwnerKind where
  | agent
  | communication
deriving Repr, DecidableEq

/-- The two chat modes of `ChatComponent` (`'agent' | 'communication'`). -/
inductive ChatMode where
  | agent
  | communication
deriving Repr, DecidableEq

/-- An agent as listed by `GET /agent/get-all` (fields the component uses). -/
structure Agent where
  id : Nat
  name : String
deriving Repr, DecidableEq

/-- A communication group as listed by `GET /communication`. -/
structure Communication where
  id : Nat
  name : String
deriving Repr, DecidableEq

/-- A conversation of the sidebar list.  `owner` is ghost data recording which
creation endpoint produced it (`conversations/agent/create` vs
`conversations/communication/create`) or which per-owner listing endpoint
fetched it. -/
structure Conv where
  id : String
  title : String
  msgs : List Message
  owner : OwnerKind
deriving Repr, DecidableEq

/-- The `useState` state of `ChatComponent`. -/
structure ChatState where
  selectedAgent : Option Agent
  selectedCommunication : Option Communication
  conversations : List Conv
  currentConversation : Option Conv
  messages : List Message
  input : String
  loading : Bool
  error : String
  chatMode : ChatMode
deriving Repr, DecidableEq

/-- The user message appended optimistically by `sendMessage`
(`{ role: 'user', content: input }`). -/
def userMessage (st : ChatState) : Message :=
  { role := "user", content := st.input }

/-- The pending placeholder appended by `sendMessage`
(`{ role: 'assistant', content: 'Thinking...', pending: true }`). -/
def loadingMessage : Message :=
  { role := "assistant", content := "Thinking...", pending := true }

/-- The guard of `sendMessage`: `if (!input.trim() || !currentConversation) return`. -/
def sendBlocked (st : ChatState) : Prop :=
  isBlank st.input = true ∨ st.currentConversation = none

instance (st : ChatState) : Decidable (sendBlocked st) := by
  unfold sendBlocked; infer_instance

/-- The synchronous prefix of `sendMessage` once past the guard: append the
user message and the pending placeholder, clear the input, set `loading`. -/
def sendPhase1 (st : ChatState) : ChatState :=
  { st with
    messages := st.messages ++ [userMessage st, loadingMessage]
    input := ""
    loading := true }

/-- Completion of `sendMessage` once the `fetch` settles: on success drop all
pending messages and append the assistant reply; on failure set the error
banner and drop all pending messages; either way clear `loading`. -/
def sendComplete (st : ChatState) (resp : Option ChatResponse) : ChatState :=
  match resp with
  | some m =>
      { st with
        messages := st.messages.filter (fun msg => !msg.pending) ++
          [{ id := some m.id, role := "assistant", content := m.content }]
        loading := false }
  | none =>
      { st with
        error := "Failed to send message"
        messages := st.messages.filter (fun msg => !msg.pending)
        loading := false }

/-- Whole `sendMessage` handler.  The returned `Bool` records whether a
backend request was issued. -/
def sendMessage (st : ChatState) (resp : Option ChatResponse) :
    ChatState × Bool :=
  if sendBlocked st then (st, false)
  else (sendComplete (sendPhase1 st) resp, true)

/-- The `type` field the component attaches to the `/chat/chat` request body:
`chatMode === 'agent' && selectedAgent ? { type: "agent" } : { type: "communication" }`. -/
def turnType (st : ChatState) : String :=
  if st.chatMode = ChatMode.agent ∧ st.selectedAgent.isSome then "agent"
  else "communication"

/-- `disabled` of the message `Input`: `!currentConversation || loading`. -/
def inputDisabled (st : ChatState) : Bool :=
  st.currentConversation.isNone || st.loading

/-- `disabled` of the send `Button`:
`!currentConversation || loading || !input.trim()`. -/
def sendButtonDisabled (st : ChatState) : Bool :=
  st.currentConversation.isNone || st.loading || isBlank st.input

/-- The request body literal `createNewConversation` builds: one of
`{ title, agent_id }`, `{ communication_id, title }`, or the untouched
initial `{}` when neither branch matches. -/
inductive CreateConvBody where
  | agentBody (title : String) (agent_id : Nat)
  | commBody (communication_id : Nat) (title : String)
  | emptyBody
deriving Repr, DecidableEq

/-- Whether a creation body carries an `agent_id` field. -/
def CreateConvBody.carriesAgentId : CreateConvBody → Bool
  | .agentBody _ _ => true
  | _ => false

/-- Whether a creation body carries a `communication_id` field. -/
def CreateConvBody.carriesCommId : CreateConvBody → Bool
  | .commBody _ _ => true
  | _ => false

/-- The body `createNewConversation` sends, `none` when the guard
`if (!selectedAgent && !selectedCommunication) return` fires and no request
is issued at all. -/
def createConvBody (st : ChatState) : Option CreateConvBody :=
  if st.selectedAgent = none ∧ st.selectedCommunication = none then none
  else
    match st.chatMode, st.selectedAgent, st.selectedCommunication with
    | ChatMode.agent, some a, _ =>
        some (.agentBody
          (toString (st.conversations.length + 1) |> fun n =>
            "Conversation " ++ n ++ " " ++ a.name) a.id)
    | ChatMode.communication, _, some c =>
        some (.commBody c.id
          (toString (st.conversations.length + 1) |> fun n =>
            "Conversation " ++ n ++ " " ++ c.name))
    | _, _, _ => some .emptyBody

/-- Owner kind recorded for a conversation created by a given body. -/
def CreateConvBody.ownerKind : CreateConvBody → OwnerKind
  | .agentBody _ _ => OwnerKind.agent
  | _ => OwnerKind.communication

/-- Raw conversation data returned by the backend (id and title). -/
structure ConvData where
  id : String
  title : String
deriving Repr, DecidableEq

/-- User-interface events of `ChatComponent`.  Each carries the outcome of
any backend call the handler makes: `ok` flags for response status and the
payload of a successful fetch. -/
inductive Event where
  | modeChange (m : ChatMode)
  | selectAgent (a : Option Agent) (fetched : List ConvData)
  | selectComm (c : Option Communication) (fetched : List ConvData)
  | createConv (ok : Bool) (data : ConvData)
  | selectConv (conv : Conv)
  | setInput (s : String)
  | submitSend (resp : Option ChatResponse)
deriving Repr

/-- Tag a fetched conversation list with the owner kind of the listing
endpoint it came from (`conversations/agent/get-all` vs
`conversations/communication/get-all`). -/
def tagConvs (k : OwnerKind) (l : List ConvData) : List Conv :=
  l.map (fun d => { id := d.id, title := d.title, msgs := [], owner := k })

/-- `handleModeChange`: switch tabs, resetting both selections, the current
conversation, the message list and the conversation list. -/
def handleModeChange (st : ChatState) (m : ChatMode) : ChatState :=
  { st with
    chatMode := m
    selectedAgent := none
    selectedCommunication := none
    currentConversation := none
    messages := []
    conversations := [] }

/-- One step of the component per event, composing the handlers of the
source.  The agent select is rendered only in agent mode and the group
select only in communication mode, so the corresponding events are no-ops in
the other mode.  Selecting an agent/group resets the conversation state and
(via the `useEffect` on the selection) fetches that owner's conversations;
when the selection resolves to `null` no fetch runs and the list stays
empty. -/
def step (st : ChatState) : Event → ChatState
  | .modeChange m => handleModeChange st m
  | .selectAgent a fetched =>
      if st.chatMode = ChatMode.agent then
        { st with
          selectedAgent := a
          currentConversation := none
          messages := []
          conversations :=
            match a with
            | some _ => tagConvs OwnerKind.agent fetched
            | none => [] }
      else st
  | .selectComm c fetched =>
      if st.chatMode = ChatMode.communication then
        { st with
          selectedCommunication := c
          currentConversation := none
          messages := []
          conversations :=
            match c with
            | some _ => tagConvs OwnerKind.communication fetched
            | none => [] }
      else st
  | .createConv ok data =>
      match createConvBody st with
      | none => st
      | some CreateConvBody.emptyBody =>
          -- in this branch the code left `url = ''`, so the POST cannot
          -- reach the backend and the handler lands in its catch block
          { st with error := "Failed to create new conversation" }
      | some body =>
          if ok then
            let conv : Conv :=
              { id := data.id, title := data.title, msgs := []
                owner := body.ownerKind }
            { st with
              conversations := st.conversations ++ [conv]
              currentConversation := some conv
              messages := [] }
          else { st with error := "Failed to create new conversation" }
  | .selectConv conv =>
      if conv ∈ st.conversations then
        { st with currentConversation := some conv, messages := conv.msgs }
      else st
  | .setInput s => { st with input := s }
  | .submitSend resp => (sendMessage st resp).1

/-- Initial state of the component (`useState` initialisers). -/
def initState : ChatState :=
  { selectedAgent := none
    selectedCommunication := none
    conversations := []
    currentConversation := none
    messages := []
    input := ""
    loading := false
    error := ""
    chatMode := ChatMode.agent }

/-- Run a sequence of events from the initial state. -/
def run (evs : List Event) : ChatState :=
  evs.foldl step initState

/-- The request `type` string a turn on a conversation of the given owner
kind should carry. -/
def ownerTypeString : OwnerKind → String
  | OwnerKind.agent => "agent"
  | OwnerKind.communication => "communication"

/-- Routing invariant: every conversation the component holds — listed or
current — was created or fetched under the owner kind that the component
would currently route a turn with. -/
def Inv (st : ChatState) : Prop :=
  (∀ c ∈ st.conversations, ownerTypeString c.owner = turnType st) ∧
  (∀ c, st.currentConversation = some c →
    ownerTypeString c.owner = turnType st)

end Chat

namespace Comm

/-- An agent row as used by `CommunicationComponent`. -/
structure Agent where
  id : Nat
  name : String
deriving Repr, DecidableEq

/-- A conversation row of `CommunicationComponent` (id and title only). -/
structure Conversation where
  id : String
  title : String
deriving Repr, DecidableEq

/-- The `useState` state of `CommunicationComponent`'s chat view. -/
structure CommState where
  selectedAgent : Option Agent
  conversations : List Conversation
  currentConversation : Option Conversation
  messages : List Message
  input : String
  loading : Bool
  error : String
deriving Repr, DecidableEq

/-- The optimistic user message (`{ role: 'user', content: input }`). -/
def userMessage (st : CommState) : Message :=
  { role := "user", content := st.input }

/-- Guard of this component's `sendMessage`:
`if (!input.trim() || !currentConversation || !selectedAgent) return`. -/
def sendBlocked (st : CommState) : Prop :=
  isBlank st.input = true ∨ st.currentConversation = none ∨
    st.selectedAgent = none

instance (st : CommState) : Decidable (sendBlocked st) := by
  unfold sendBlocked; infer_instance

/-- Synchronous prefix of `sendMessage` past the guard. -/
def sendPhase1 (st : CommState) : CommState :=
  { st with
    messages := st.messages ++ [userMessage st, Chat.loadingMessage]
    input := ""
    loading := true }

/-- Completion of `sendMessage` once the `fetch` settles. -/
def sendComplete (st : CommState) (resp : Option ChatResponse) : CommState :=
  match resp with
  | some m =>
      { st with
        messages := st.messages.filter (fun msg => !msg.pending) ++
          [{ id := some m.id, role := "assistant", content := m.content }]
        loading := false }
  | none =>
      { st with
        error := "Failed to send message"
        messages := st.messages.filter (fun msg => !msg.pending)
        loading := false }

/-- Whole `sendMessage` handler; the `Bool` records whether a request was
issued. -/
def sendMessage (st : CommState) (resp : Option ChatResponse) :
    CommState × Bool :=
  if sendBlocked st then (st, false)
  else (sendComplete (sendPhase1 st) resp, true)

end Comm

namespace KB

/-- `ragTypeMap` of `KnowledgeBaseComponent`: the `rag_type` values offered
by the create and edit dialogs, in source order, with their labels. -/
def ragTypeMap : List (String × String) :=
  [("normal_rag", "Normal"),
   ("hybrid_rag", "Hybrid"),
   ("contextual_rag", "Contextual"),
   ("fusion_rag", "Fusion"),
   ("hyde_rag", "HyDE"),
   ("naive_rag", "Naive")]

/-- The selectable `rag_type` keys (the dialogs render one `SelectItem` per
entry of `ragTypeMap`; the earlier inline variant of the create dialog lists
the same six values literally). -/
def offeredRagTypes : List String := ragTypeMap.map Prod.fst

/-- Modelled from the spec: the six retrieval-strategy variants §4.2 lists
(naive, hybrid, hyde, fusion, contextual, unstructured), written with the
dashboard's `_rag` value convention.  The strategy engine itself is backend
code absent from the visible source. -/
def specRagTypes : List String :=
  ["naive_rag", "hybrid_rag", "hyde_rag", "fusion_rag", "contextual_rag",
   "unstructured_rag"]

/-- `renderDocumentCard` renders the start-processing button iff
`doc.status !== 'processed'` (note the lower-case literal). -/
def showStartButton (status : String) : Bool :=
  status ≠ "processed"

/-- The start-processing button's `disabled` expression:
`isProcessing || doc.status === 'PROCESSING'`. -/
def startButtonDisabled (isProcessing : Bool) (status : String) : Bool :=
  isProcessing || status == "PROCESSING"

end KB

namespace AgentForm

/-- The agent creation form data (`AgentFormData`); `configuration` is an
opaque record to the component and is modelled abstractly. -/
structure AgentFormData where
  name : String
  agent_type : String
  foundation_id : Option Nat
  config_id : Option Nat
  description : String
  configuration : List (String × String)
  tools : List String
  kb_ids : List Nat
deriving Repr, DecidableEq

/-- `handleKnowledgeBaseChange`: toggle a knowledge-base id in the creation
form's `kb_ids` — filter it out when present, append it when absent. -/
def handleKnowledgeBaseChange (fd : AgentFormData) (kbId : Nat) :
    AgentFormData :=
  if kbId ∈ fd.kb_ids then
    { fd with kb_ids := fd.kb_ids.filter (fun i => i ≠ kbId) }
  else
    { fd with kb_ids := fd.kb_ids ++ [kbId] }

end AgentForm

namespace Ingest

/-- Modelled from the spec: the backend chunking/ingestion pipeline (§4.1)
is not part of the visible source; only the dashboard that calls it is.
Configuration slice relevant to chunking. -/
structure KbConfig where
  chunk_size : Nat
  chunk_overlap : Nat
deriving Repr, DecidableEq

/-- Modelled from the spec: `ConfigError` — invalid chunk/overlap
configuration, fatal and never retried (§7). -/
inductive ConfigError where
  | invalidChunking
deriving Repr, DecidableEq

/-- Modelled from the spec: split a text into chunks of `size` characters,
consecutive chunks sharing `overlap` characters (§4.1).  Structural
recursion on a fuel bound (each step strictly shortens the text when
`overlap < size`, so `s.length + 1` fuel always suffices); the
`size ≤ overlap` case is unreachable behind the `ConfigError` guard. -/
def chunkTextAux : Nat → Nat → Nat → List Char → List (List Char)
  | 0, _, _, _ => []
  | fuel + 1, size, overlap, s =>
    if size ≤ overlap then []
    else if s.length ≤ size then (if s.isEmpty then [] else [s])
    else s.take size :: chunkTextAux fuel size overlap (s.drop (size - overlap))

/-- Modelled from the spec: the chunk list of one document (§4.1). -/
def chunkText (size overlap : Nat) (s : List Char) : List (List Char) :=
  chunkTextAux (s.length + 1) size overlap s

/-- A stored chunk: ordinal position, text span, embedding vector. -/
structure Chunk where
  ordinal : Nat
  text : List Char
  vector : List Int
deriving Repr, DecidableEq

/-- Modelled from the spec: `process(document, kb_config)` — chunk the text
and embed each chunk via the Embedding Gateway (`embed`), or fail with
`ConfigError` unless `overlap < size` (§4.1). -/
def processChunks (embed : List Char → List Int) (cfg : KbConfig)
    (text : List Char) : Except ConfigError (List Chunk) :=
  if cfg.chunk_overlap < cfg.chunk_size then
    .ok ((chunkText cfg.chunk_size cfg.chunk_overlap text).enum.map
      (fun p => { ordinal := p.1, text := p.2, vector := embed p.2 }))
  else .error ConfigError.invalidChunking

/-- The vector store restricted to one knowledge base: entries keyed by
`(document_id, ordinal)`. -/
abbrev Store := List ((Nat × Nat) × Chunk)

/-- Modelled from the spec: upserting a document's chunks deterministically
overwrites all prior chunks of that document id (§4.1). -/
def overwriteDoc (store : Store) (docId : Nat) (chunks : List Chunk) :
    Store :=
  store.filter (fun e => e.1.1 ≠ docId) ++
    chunks.map (fun c => ((docId, c.ordinal), c))

/-- Modelled from the spec: one run of `process` against the store. -/
def processIntoStore (embed : List Char → List Int) (cfg : KbConfig)
    (docId : Nat) (text : List Char) (store : Store) :
    Except ConfigError Store :=
  (processChunks embed cfg text).map (overwriteDoc store docId)

end Ingest

/-! ## Helper lemmas -/

/-- A message list with no pending messages is unchanged by the pending
filter both views run on completion. -/
lemma filter_not_pending_of_all (l : List Message)
    (h : ∀ m ∈ l, m.pending = false) :
    l.filter (fun msg => !msg.pending) = l :=
  List.filter_eq_self.mpr (fun m hm => by simp [h m hm])

/-! ## Claims -/

/-- C9: when the input is empty or only whitespace, or no conversation is
selected, `sendMessage` (in both `ChatComponent` and
`CommunicationComponent`) returns without issuing a backend request and
without changing any state. -/
theorem c9_guard_no_request_no_change :
    (∀ (st : Chat.ChatState) (resp : Option ChatResponse),
        isBlank st.input = true ∨ st.currentConversation = none →
        Chat.sendMessage st resp = (st, false)) ∧
    (∀ (st : Comm.CommState) (resp : Option ChatResponse),
        isBlank st.input = true ∨ st.currentConversation = none →
        Comm.sendMessage st resp = (st, false)) := by
  constructor
  · intro st resp h
    have hb : Chat.sendBlocked st := h
    simp [Chat.sendMessage, hb]
  · intro st resp h
    have hb : Comm.sendBlocked st := by
      unfold Comm.sendBlocked; tauto
    simp [Comm.sendMessage, hb]

/-- Witness for C9 at a concrete whitespace-only input. -/
theorem c9_witness :
    Chat.sendMessage { Chat.initState with input := "   " } none =
      ({ Chat.initState with input := "   " }, false) :=
  c9_guard_no_request_no_change.1 _ none (Or.inl (by decide))

/-- C8: after a `sendMessage` call completes — success or failure — the
displayed message list contains no pending message, in both chat views. -/
theorem c8_no_pending_after_send_completes :
    (∀ (st : Chat.ChatState) (resp : Option ChatResponse),
        (∀ m ∈ st.messages, m.pending = false) →
        ∀ m ∈ (Chat.sendMessage st resp).1.messages, m.pending = false) ∧
    (∀ (st : Comm.CommState) (resp : Option ChatResponse),
        (∀ m ∈ st.messages, m.pending = false) →
        ∀ m ∈ (Comm.sendMessage st resp).1.messages, m.pending = false) := by
  constructor
  · intro st resp h
    by_cases hb : Chat.sendBlocked st
    · simpa [Chat.sendMessage, hb] using h
    · cases resp with
      | some r =>
          simp only [Chat.sendMessage, hb, if_false, Chat.sendComplete]
          intro m hm
          rcases List.mem_append.mp hm with hm' | hm'
          · exact (Bool.not_eq_true' _).mp (List.mem_filter.mp hm').2
          · simp at hm'; simp [hm']
      | none =>
          simp only [Chat.sendMessage, hb, if_false, Chat.sendComplete]
          intro m hm
          exact (Bool.not_eq_true' _).mp (List.mem_filter.mp hm).2
  · intro st resp h
    by_cases hb : Comm.sendBlocked st
    · simpa [Comm.sendMessage, hb] using h
    · cases resp with
      | some r =>
          simp only [Comm.sendMessage, hb, if_false, Comm.sendComplete]
          intro m hm
          rcases List.mem_append.mp hm with hm' | hm'
          · exact (Bool.not_eq_true' _).mp (List.mem_filter.mp hm').2
          · simp at hm'; simp [hm']
      | none =>
          simp only [Comm.sendMessage, hb, if_false, Comm.sendComplete]
          intro m hm
          exact (Bool.not_eq_true' _).mp (List.mem_filter.mp hm).2

/-- Witness for C8: concrete turn on a one-message history. -/
theorem c8_witness :
    ∀ m ∈ (Chat.sendMessage
        { Chat.initState with
            input := "hi"
            currentConversation := some
              { id := "c1", title := "t", msgs := [],
                owner := Chat.OwnerKind.agent }
            messages := [{ role := "user", content := "earlier" }] }
        (some { id := 7, content := "answer" })).1.messages,
      m.pending = false :=
  c8_no_pending_after_send_completes.1 _ _ (by decide)

/-- C1: a successful chat turn appends exactly one user message followed by
exactly one non-pending assistant message to the prior list, in both chat
views; no other message is added and the pending placeholder does not
survive. -/
theorem c1_success_turn_appends_one_user_one_assistant :
    (∀ (st : Chat.ChatState) (r : ChatResponse),
        (∀ m ∈ st.messages, m.pending = false) →
        ¬ Chat.sendBlocked st →
        Chat.sendMessage st (some r) =
          ({ st with
              messages := st.messages ++
                [{ id := none, role := "user", content := st.input,
                   pending := false },
                 { id := some r.id, role := "assistant",
                   content := r.content, pending := false }]
              input := ""
              loading := false }, true)) ∧
    (∀ (st : Comm.CommState) (r : ChatResponse),
        (∀ m ∈ st.messages, m.pending = false) →
        ¬ Comm.sendBlocked st →
        Comm.sendMessage st (some r) =
          ({ st with
              messages := st.messages ++
                [{ id := none, role := "user", content := st.input,
                   pending := false },
                 { id := some r.id, role := "assistant",
                   content := r.content, pending := false }]
              input := ""
              loading := false }, true)) := by
  constructor
  · intro st r h hnb
    simp only [Chat.sendMessage, if_neg hnb]
    unfold Chat.sendComplete Chat.sendPhase1
    simp [List.filter_append, filter_not_pending_of_all _ h,
      Chat.userMessage, Chat.loadingMessage, List.filter]
  · intro st r h hnb
    simp only [Comm.sendMessage, if_neg hnb]
    unfold Comm.sendComplete Comm.sendPhase1
    simp [List.filter_append, filter_not_pending_of_all _ h,
      Comm.userMessage, Chat.loadingMessage, List.filter]

/-- Witness for C1: concrete successful turn. -/
theorem c1_witness :
    Chat.sendMessage
        { Chat.initState with
            input := "hello"
            currentConversation := some
              { id := "c1", title := "t", msgs := [],
                owner := Chat.OwnerKind.agent } }
        (some { id := 3, content := "world" }) =
      ({ Chat.initState with
          input := ""
          currentConversation := some
            { id := "c1", title := "t", msgs := [],
              owner := Chat.OwnerKind.agent }
          messages :=
            [{ id := none, role := "user", content := "hello",
               pending := false },
             { id := some 3, role := "assistant", content := "world",
               pending := false }] }, true) :=
  c1_success_turn_appends_one_user_one_assistant.1 _ _ (by decide)
    (by rw [Chat.sendBlocked]; decide)

/-- C2: a failed chat turn sets the error banner, removes the pending
placeholder, and leaves the user's message with no assistant reply for the
turn, in both chat views. -/
theorem c2_failed_turn_sets_error_no_assistant :
    (∀ (st : Chat.ChatState),
        (∀ m ∈ st.messages, m.pending = false) →
        ¬ Chat.sendBlocked st →
        Chat.sendMessage st none =
          ({ st with
              messages := st.messages ++
                [{ id := none, role := "user", content := st.input,
                   pending := false }]
              input := ""
              loading := false
              error := "Failed to send message" }, true) ∧
        (Chat.sendMessage st none).1.error ≠ "") ∧
    (∀ (st : Comm.CommState),
        (∀ m ∈ st.messages, m.pending = false) →
        ¬ Comm.sendBlocked st →
        Comm.sendMessage st none =
          ({ st with
              messages := st.messages ++
                [{ id := none, role := "user", content := st.input,
                   pending := false }]
              input := ""
              loading := false
              error := "Failed to send message" }, true) ∧
        (Comm.sendMessage st none).1.error ≠ "") := by
  constructor
  · intro st h hnb
    have heq : Chat.sendMessage st none =
        ({ st with
            messages := st.messages ++
              [{ id := none, role := "user", content := st.input,
                 pending := false }]
            input := ""
            loading := false
            error := "Failed to send message" }, true) := by
      simp only [Chat.sendMessage, if_neg hnb]
      unfold Chat.sendComplete Chat.sendPhase1
      simp [List.filter_append, filter_not_pending_of_all _ h,
        Chat.userMessage, Chat.loadingMessage, List.filter]
    exact ⟨heq, by
      rw [heq]; exact (by decide : ("Failed to send message" : String) ≠ "")⟩
  · intro st h hnb
    have heq : Comm.sendMessage st none =
        ({ st with
            messages := st.messages ++
              [{ id := none, role := "user", content := st.input,
                 pending := false }]
            input := ""
            loading := false
            error := "Failed to send message" }, true) := by
      simp only [Comm.sendMessage, if_neg hnb]
      unfold Comm.sendComplete Comm.sendPhase1
      simp [List.filter_append, filter_not_pending_of_all _ h,
        Comm.userMessage, Chat.loadingMessage, List.filter]
    exact ⟨heq, by
      rw [heq]; exact (by decide : ("Failed to send message" : String) ≠ "")⟩

/-- Witness for C2: concrete failed turn. -/
theorem c2_witness :
    Chat.sendMessage
        { Chat.initState with
            input := "hello"
            currentConversation := some
              { id := "c9", title := "t", msgs := [],
                owner := Chat.OwnerKind.agent } }
        none =
      ({ Chat.initState with
          input := ""
          currentConversation := some
            { id := "c9", title := "t", msgs := [],
              owner := Chat.OwnerKind.agent }
          messages :=
            [{ id := none, role := "user", content := "hello",
               pending := false }]
          error := "Failed to send message" }, true) :=
  (c2_failed_turn_sets_error_no_assistant.1 _ (by decide)
    (by rw [Chat.sendBlocked]; decide)).1

/-- C6: once a turn's request is issued, the loading flag is set, the
message input and the send button are disabled, and a further submission on
the in-flight state is a no-op that issues no request. -/
theorem c6_at_most_one_inflight_turn :
    ∀ (st : Chat.ChatState), ¬ Chat.sendBlocked st →
      (Chat.sendPhase1 st).loading = true ∧
      Chat.inputDisabled (Chat.sendPhase1 st) = true ∧
      Chat.sendButtonDisabled (Chat.sendPhase1 st) = true ∧
      (∀ resp, Chat.sendMessage (Chat.sendPhase1 st) resp =
        (Chat.sendPhase1 st, false)) := by
  intro st _
  refine ⟨rfl, ?_, ?_, ?_⟩
  · simp [Chat.inputDisabled, Chat.sendPhase1]
  · simp [Chat.sendButtonDisabled, Chat.sendPhase1, isBlank, trimmed]
  · intro resp
    have hb : Chat.sendBlocked (Chat.sendPhase1 st) :=
      Or.inl (show isBlank "" = true by decide)
    simp [Chat.sendMessage, hb]

/-- Witness for C6: concrete in-flight state. -/
theorem c6_witness :
    (Chat.sendPhase1
        { Chat.initState with
            input := "hi"
            currentConversation := some
              { id := "c2", title := "t", msgs := [],
                owner := Chat.OwnerKind.agent } }).loading = true ∧
    Chat.inputDisabled (Chat.sendPhase1
        { Chat.initState with
            input := "hi"
            currentConversation := some
              { id := "c2", title := "t", msgs := [],
                owner := Chat.OwnerKind.agent } }) = true ∧
    Chat.sendButtonDisabled (Chat.sendPhase1
        { Chat.initState with
            input := "hi"
            currentConversation := some
              { id := "c2", title := "t", msgs := [],
                owner := Chat.OwnerKind.agent } }) = true ∧
    (∀ resp, Chat.sendMessage (Chat.sendPhase1
        { Chat.initState with
            input := "hi"
            currentConversation := some
              { id := "c2", title := "t", msgs := [],
                owner := Chat.OwnerKind.agent } }) resp =
      (Chat.sendPhase1
        { Chat.initState with
            input := "hi"
            currentConversation := some
              { id := "c2", title := "t", msgs := [],
                owner := Chat.OwnerKind.agent } }, false)) :=
  c6_at_most_one_inflight_turn _ (by rw [Chat.sendBlocked]; decide)

/-- C10: `handleKnowledgeBaseChange` flips the membership of the given
knowledge-base id in `kb_ids`, leaves every other id's membership and every
other form field unchanged, and applying it twice with the same id restores
the original selection set. -/
theorem c10_kb_toggle_involutive :
    ∀ (fd : AgentForm.AgentFormData) (kbId : Nat),
      (kbId ∈ (AgentForm.handleKnowledgeBaseChange fd kbId).kb_ids ↔
        kbId ∉ fd.kb_ids) ∧
      (∀ x, x ≠ kbId →
        (x ∈ (AgentForm.handleKnowledgeBaseChange fd kbId).kb_ids ↔
          x ∈ fd.kb_ids)) ∧
      (AgentForm.handleKnowledgeBaseChange fd kbId).name = fd.name ∧
      (AgentForm.handleKnowledgeBaseChange fd kbId).agent_type =
        fd.agent_type ∧
      (AgentForm.handleKnowledgeBaseChange fd kbId).foundation_id =
        fd.foundation_id ∧
      (AgentForm.handleKnowledgeBaseChange fd kbId).config_id =
        fd.config_id ∧
      (AgentForm.handleKnowledgeBaseChange fd kbId).description =
        fd.description ∧
      (AgentForm.handleKnowledgeBaseChange fd kbId).configuration =
        fd.configuration ∧
      (AgentForm.handleKnowledgeBaseChange fd kbId).tools = fd.tools ∧
      (∀ x, x ∈ (AgentForm.handleKnowledgeBaseChange
          (AgentForm.handleKnowledgeBaseChange fd kbId) kbId).kb_ids ↔
        x ∈ fd.kb_ids) := by
  intro fd kbId
  have hfields : ∀ (g : AgentForm.AgentFormData) (k : Nat),
      (AgentForm.handleKnowledgeBaseChange g k).name = g.name ∧
      (AgentForm.handleKnowledgeBaseChange g k).agent_type = g.agent_type ∧
      (AgentForm.handleKnowledgeBaseChange g k).foundation_id =
        g.foundation_id ∧
      (AgentForm.handleKnowledgeBaseChange g k).config_id = g.config_id ∧
      (AgentForm.handleKnowledgeBaseChange g k).description =
        g.description ∧
      (AgentForm.handleKnowledgeBaseChange g k).configuration =
        g.configuration ∧
      (AgentForm.handleKnowledgeBaseChange g k).tools = g.tools := by
    intro g k
    unfold AgentForm.handleKnowledgeBaseChange
    split <;> exact ⟨rfl, rfl, rfl, rfl, rfl, rfl, rfl⟩
  obtain ⟨h1, h2, h3, h4, h5, h6, h7⟩ := hfields fd kbId
  by_cases hmem : kbId ∈ fd.kb_ids
  · have hk : (AgentForm.handleKnowledgeBaseChange fd kbId).kb_ids =
        fd.kb_ids.filter (fun i => i ≠ kbId) := by
      simp [AgentForm.handleKnowledgeBaseChange, hmem]
    have hnot : kbId ∉ (AgentForm.handleKnowledgeBaseChange fd kbId).kb_ids := by
      rw [hk]; simp [List.mem_filter]
    have hk2 : (AgentForm.handleKnowledgeBaseChange
        (AgentForm.handleKnowledgeBaseChange fd kbId) kbId).kb_ids =
        fd.kb_ids.filter (fun i => i ≠ kbId) ++ [kbId] := by
      rw [AgentForm.handleKnowledgeBaseChange, if_neg hnot, hk]
    refine ⟨?_, ?_, h1, h2, h3, h4, h5, h6, h7, ?_⟩
    · rw [hk]; simp [List.mem_filter, hmem]
    · intro x hx
      rw [hk]; simp [List.mem_filter, hx]
    · intro x
      rw [hk2]
      by_cases hx : x = kbId
      · subst hx; simp [hmem]
      · simp [List.mem_filter, hx]
  · have hk : (AgentForm.handleKnowledgeBaseChange fd kbId).kb_ids =
        fd.kb_ids ++ [kbId] := by
      simp [AgentForm.handleKnowledgeBaseChange, hmem]
    have hin : kbId ∈ (AgentForm.handleKnowledgeBaseChange fd kbId).kb_ids := by
      rw [hk]; simp
    have hfix : fd.kb_ids.filter (fun i => i ≠ kbId) = fd.kb_ids :=
      List.filter_eq_self.mpr (fun a ha => by
        simp only [ne_eq, decide_eq_true_eq]
        exact fun hcontra => hmem (hcontra ▸ ha))
    have hk2 : (AgentForm.handleKnowledgeBaseChange
        (AgentForm.handleKnowledgeBaseChange fd kbId) kbId).kb_ids =
        fd.kb_ids := by
      rw [AgentForm.handleKnowledgeBaseChange, if_pos hin, hk]
      simp only [List.filter_append]
      rw [hfix]
      simp [List.filter]
    refine ⟨?_, ?_, h1, h2, h3, h4, h5, h6, h7, ?_⟩
    · rw [hk]; simp [hmem]
    · intro x hx
      rw [hk]; simp [hx]
    · intro x
      rw [hk2]

/-- Witness for C10: concrete toggle on the selection `[1, 2]`. -/
theorem c10_witness :
    (3 ∈ (AgentForm.handleKnowledgeBaseChange
        { name := "a", agent_type := "react", foundation_id := none,
          config_id := none, description := "", configuration := [],
          tools := [], kb_ids := [1, 2] } 3).kb_ids ↔ 3 ∉ [1, 2]) ∧
    (1 ∈ (AgentForm.handleKnowledgeBaseChange
        { name := "a", agent_type := "react", foundation_id := none,
          config_id := none, description := "", configuration := [],
          tools := [], kb_ids := [1, 2] } 3).kb_ids ↔ 1 ∈ [1, 2]) :=
  ⟨(c10_kb_toggle_involutive
      { name := "a", agent_type := "react", foundation_id := none,
        config_id := none, description := "", configuration := [],
        tools := [], kb_ids := [1, 2] } 3).1,
   (c10_kb_toggle_involutive
      { name := "a", agent_type := "react", foundation_id := none,
        config_id := none, description := "", configuration := [],
        tools := [], kb_ids := [1, 2] } 3).2.1 1 (by decide)⟩

/-- C4 (code bug): a document whose status is the state-machine name
`PROCESSED` still gets the start-processing control rendered — and enabled —
because the render guard compares against the lower-case literal
`'processed'` while the same expression compares `PROCESSING` upper-case;
for `FAILED` the control is rendered and enabled exactly when no run is in
flight. -/
theorem c4_processed_document_still_shows_start_control :
    KB.showStartButton "PROCESSED" = true ∧
    KB.startButtonDisabled false "PROCESSED" = false ∧
    KB.showStartButton "FAILED" = true ∧
    KB.startButtonDisabled false "FAILED" = false ∧
    KB.startButtonDisabled true "FAILED" = true ∧
    KB.showStartButton "processed" = false := by
  decide

/-- C3 counterexample: the offered `rag_type` set is not the spec's six
variants — `unstructured` is absent and an extra `normal` variant is
offered. -/
theorem c3_counterexample_offered_set_differs :
    "unstructured_rag" ∈ RagApp.KB.specRagTypes ∧
    "unstructured_rag" ∉ RagApp.KB.offeredRagTypes ∧
    "normal_rag" ∈ RagApp.KB.offeredRagTypes ∧
    "normal_rag" ∉ RagApp.KB.specRagTypes := by
  decide

/-- C3 (amended): the selectable `rag_type` values are exactly the spec's
variants without `unstructured`, plus the extra `normal` variant. -/
theorem c3_offered_strategies_characterized :
    ∀ s : String,
      s ∈ KB.offeredRagTypes ↔
        ((s ∈ KB.specRagTypes ∧ s ≠ "unstructured_rag") ∨
          s = "normal_rag") := by
  intro s
  constructor
  · intro h
    simp [KB.offeredRagTypes, KB.ragTypeMap] at h
    rcases h with rfl | rfl | rfl | rfl | rfl | rfl <;>
      simp [KB.specRagTypes]
  · intro h
    rcases h with ⟨hmem, hne⟩ | rfl
    · simp [KB.specRagTypes] at hmem
      rcases hmem with rfl | rfl | rfl | rfl | rfl | rfl <;>
        first
          | exact absurd rfl hne
          | simp [KB.offeredRagTypes, KB.ragTypeMap]
    · simp [KB.offeredRagTypes, KB.ragTypeMap]

/-- Witness for C3's amended claim at a concrete strategy value. -/
theorem c3_witness :
    "hybrid_rag" ∈ RagApp.KB.offeredRagTypes ↔
      (("hybrid_rag" ∈ RagApp.KB.specRagTypes ∧
        "hybrid_rag" ≠ "unstructured_rag") ∨
        "hybrid_rag" = "normal_rag") :=
  c3_offered_strategies_characterized "hybrid_rag"

/-- Overwriting a document's chunks is idempotent on the store: the second
write removes exactly the entries the first write put there and re-adds
them. -/
lemma overwriteDoc_idem (store : Ingest.Store) (docId : Nat)
    (chunks : List Ingest.Chunk) :
    Ingest.overwriteDoc (Ingest.overwriteDoc store docId chunks) docId
        chunks =
      Ingest.overwriteDoc store docId chunks := by
  unfold Ingest.overwriteDoc
  rw [List.filter_append]
  have h1 : (store.filter (fun e => decide (e.1.1 ≠ docId))).filter
      (fun e => decide (e.1.1 ≠ docId)) =
      store.filter (fun e => decide (e.1.1 ≠ docId)) :=
    List.filter_eq_self.mpr (fun a ha => (List.mem_filter.mp ha).2)
  have h2 : ((chunks.map
      (fun c => ((docId, c.ordinal), c))).filter
        (fun e => decide (e.1.1 ≠ docId))) = [] :=
    List.filter_eq_nil_iff.mpr (fun a ha => by
      obtain ⟨c, _, rfl⟩ := List.mem_map.mp ha
      simp)
  rw [h1, h2, List.append_nil]

/-- C7: for `chunk_overlap < chunk_size`, re-processing the same document
under the same configuration is idempotent — the chunk list (ordinals, text
spans, embeddings) is the same deterministic value on every run, and
re-running `process` against a store that already holds the document's
chunks leaves the store unchanged. -/
theorem c7_reprocess_idempotent :
    ∀ (embed : List Char → List Int) (cfg : Ingest.KbConfig) (docId : Nat)
      (text : List Char) (store store' : Ingest.Store),
      cfg.chunk_overlap < cfg.chunk_size →
      Ingest.processIntoStore embed cfg docId text store = .ok store' →
      Ingest.processIntoStore embed cfg docId text store' = .ok store' ∧
      Ingest.processChunks embed cfg text =
        .ok ((Ingest.chunkText cfg.chunk_size cfg.chunk_overlap text).enum.map
          (fun p => { ordinal := p.1, text := p.2, vector := embed p.2 })) := by
  intro embed cfg docId text store store' hlt hrun
  unfold Ingest.processIntoStore Ingest.processChunks at hrun ⊢
  rw [if_pos hlt] at hrun ⊢
  simp only [Except.map] at hrun ⊢
  injection hrun with hrun
  subst hrun
  exact ⟨congrArg Except.ok (overwriteDoc_idem ..), trivial⟩

/-- Witness for C7: an 8-character text chunked at size 5 / overlap 2
(two chunks), written twice into the store. -/
theorem c7_witness :
    2 < 5 ∧
    Ingest.processIntoStore (fun s => [(s.length : Int)])
        { chunk_size := 5, chunk_overlap := 2 } 1
        ['a', 'b', 'c', 'd', 'e', 'f', 'g', 'h']
        [((1, 0), ⟨0, ['a', 'b', 'c', 'd', 'e'], [5]⟩),
         ((1, 1), ⟨1, ['d', 'e', 'f', 'g', 'h'], [5]⟩)] =
      .ok
        [((1, 0), ⟨0, ['a', 'b', 'c', 'd', 'e'], [5]⟩),
         ((1, 1), ⟨1, ['d', 'e', 'f', 'g', 'h'], [5]⟩)] :=
  ⟨by decide,
   (c7_reprocess_idempotent (fun s => [(s.length : Int)])
      { chunk_size := 5, chunk_overlap := 2 } 1
      ['a', 'b', 'c', 'd', 'e', 'f', 'g', 'h'] [] _ (by decide) rfl).1⟩

/-- `sendMessage` touches only messages, input, loading and error: mode,
selections and the conversation state are untouched. -/
lemma sendMessage_frame (st : Chat.ChatState) (resp : Option ChatResponse) :
    (Chat.sendMessage st resp).1.chatMode = st.chatMode ∧
    (Chat.sendMessage st resp).1.selectedAgent = st.selectedAgent ∧
    (Chat.sendMessage st resp).1.selectedCommunication =
      st.selectedCommunication ∧
    (Chat.sendMessage st resp).1.conversations = st.conversations ∧
    (Chat.sendMessage st resp).1.currentConversation =
      st.currentConversation := by
  unfold Chat.sendMessage
  split
  · exact ⟨rfl, rfl, rfl, rfl, rfl⟩
  · cases resp <;> exact ⟨rfl, rfl, rfl, rfl, rfl⟩

/-- The routing `type` of a turn is unchanged by `sendMessage`. -/
lemma turnType_sendMessage (st : Chat.ChatState) (resp : Option ChatResponse) :
    Chat.turnType (Chat.sendMessage st resp).1 = Chat.turnType st := by
  unfold Chat.sendMessage
  split
  · rfl
  · cases resp <;> rfl

/-- Inversion: an `agent_id`-carrying creation body is only built in agent
mode with an agent selected. -/
lemma createConvBody_agent_inv (st : Chat.ChatState) (t : String) (i : Nat)
    (hb : Chat.createConvBody st =
      some (Chat.CreateConvBody.agentBody t i)) :
    st.chatMode = Chat.ChatMode.agent ∧ st.selectedAgent.isSome = true := by
  unfold Chat.createConvBody at hb
  split at hb
  · exact absurd hb (by simp)
  · rcases hmode : st.chatMode with _ | _ <;>
      rcases hsel : st.selectedAgent with _ | a <;>
      rcases hsel2 : st.selectedCommunication with _ | c <;>
      simp [hmode, hsel, hsel2] at hb ⊢

/-- Inversion: a `communication_id`-carrying creation body is only built in
communication mode with a group selected. -/
lemma createConvBody_comm_inv (st : Chat.ChatState) (i : Nat) (t : String)
    (hb : Chat.createConvBody st =
      some (Chat.CreateConvBody.commBody i t)) :
    st.chatMode = Chat.ChatMode.communication ∧
      st.selectedCommunication.isSome = true := by
  unfold Chat.createConvBody at hb
  split at hb
  · exact absurd hb (by simp)
  · rcases hmode : st.chatMode with _ | _ <;>
      rcases hsel : st.selectedAgent with _ | a <;>
      rcases hsel2 : st.selectedCommunication with _ | c <;>
      simp [hmode, hsel, hsel2] at hb ⊢

/-- Every component event preserves the routing invariant. -/
lemma chat_inv_step (st : Chat.ChatState) (e : Chat.Event)
    (h : Chat.Inv st) : Chat.Inv (Chat.step st e) := by
  obtain ⟨hl, hc⟩ := h
  cases e with
  | modeChange m =>
      constructor
      · intro c hmem
        simp [Chat.step, Chat.handleModeChange] at hmem
      · intro c hcur
        simp [Chat.step, Chat.handleModeChange] at hcur
  | selectAgent a fetched =>
      by_cases hm : st.chatMode = Chat.ChatMode.agent
      · cases a with
        | none =>
            constructor
            · intro c hmem
              simp [Chat.step, hm] at hmem
            · intro c hcur
              simp [Chat.step, hm] at hcur
        | some ag =>
            have hstep : Chat.step st (Chat.Event.selectAgent (some ag) fetched) =
                { st with
                  selectedAgent := some ag
                  currentConversation := none
                  messages := []
                  conversations := Chat.tagConvs Chat.OwnerKind.agent fetched } := by
              simp [Chat.step, hm]
            rw [hstep]
            constructor
            · intro c hmem
              simp only [Chat.tagConvs, List.mem_map] at hmem
              obtain ⟨d, _, rfl⟩ := hmem
              simp [Chat.ownerTypeString, Chat.turnType, hm]
            · intro c hcur
              simp at hcur
      · have hstep : Chat.step st (Chat.Event.selectAgent a fetched) = st := by
          simp [Chat.step, hm]
        rw [hstep]
        exact ⟨hl, hc⟩
  | selectComm cm fetched =>
      by_cases hm : st.chatMode = Chat.ChatMode.communication
      · cases cm with
        | none =>
            constructor
            · intro c hmem
              simp [Chat.step, hm] at hmem
            · intro c hcur
              simp [Chat.step, hm] at hcur
        | some g =>
            have hstep : Chat.step st (Chat.Event.selectComm (some g) fetched) =
                { st with
                  selectedCommunication := some g
                  currentConversation := none
                  messages := []
                  conversations :=
                    Chat.tagConvs Chat.OwnerKind.communication fetched } := by
              simp [Chat.step, hm]
            rw [hstep]
            constructor
            · intro c hmem
              simp only [Chat.tagConvs, List.mem_map] at hmem
              obtain ⟨d, _, rfl⟩ := hmem
              simp [Chat.ownerTypeString, Chat.turnType, hm]
            · intro c hcur
              simp at hcur
      · have hstep : Chat.step st (Chat.Event.selectComm cm fetched) = st := by
          simp [Chat.step, hm]
        rw [hstep]
        exact ⟨hl, hc⟩
  | createConv ok data =>
      rcases hb : Chat.createConvBody st with _ | b
      · have hstep : Chat.step st (Chat.Event.createConv ok data) = st := by
          simp [Chat.step, hb]
        rw [hstep]
        exact ⟨hl, hc⟩
      · cases b with
        | emptyBody =>
            have hstep : Chat.step st (Chat.Event.createConv ok data) =
                { st with error := "Failed to create new conversation" } := by
              simp [Chat.step, hb]
            rw [hstep]
            exact ⟨fun c hmem => hl c hmem, fun c hcur => hc c hcur⟩
        | agentBody t i =>
            obtain ⟨hmode, hsel⟩ := createConvBody_agent_inv st t i hb
            cases ok with
            | true =>
                have hstep : Chat.step st (Chat.Event.createConv true data) =
                    { st with
                      conversations := st.conversations ++
                        [{ id := data.id, title := data.title, msgs := [],
                           owner := Chat.OwnerKind.agent }]
                      currentConversation := some
                        { id := data.id, title := data.title, msgs := [],
                          owner := Chat.OwnerKind.agent }
                      messages := [] } := by
                  simp [Chat.step, hb, Chat.CreateConvBody.ownerKind]
                rw [hstep]
                constructor
                · intro c hmem
                  rcases List.mem_append.mp hmem with hmem' | hmem'
                  · exact hl c hmem'
                  · rw [List.mem_singleton.mp hmem']
                    simp [Chat.ownerTypeString, Chat.turnType, hmode, hsel]
                · intro c hcur
                  rw [Option.some.injEq] at hcur
                  rw [← hcur]
                  simp [Chat.ownerTypeString, Chat.turnType, hmode, hsel]
            | false =>
                have hstep : Chat.step st (Chat.Event.createConv false data) =
                    { st with error := "Failed to create new conversation" } := by
                  simp [Chat.step, hb]
                rw [hstep]
                exact ⟨fun c hmem => hl c hmem, fun c hcur => hc c hcur⟩
        | commBody i t =>
            obtain ⟨hmode, _⟩ := createConvBody_comm_inv st i t hb
            cases ok with
            | true =>
                have hstep : Chat.step st (Chat.Event.createConv true data) =
                    { st with
                      conversations := st.conversations ++
                        [{ id := data.id, title := data.title, msgs := [],
                           owner := Chat.OwnerKind.communication }]
                      currentConversation := some
                        { id := data.id, title := data.title, msgs := [],
                          owner := Chat.OwnerKind.communication }
                      messages := [] } := by
                  simp [Chat.step, hb, Chat.CreateConvBody.ownerKind]
                rw [hstep]
                constructor
                · intro c hmem
                  rcases List.mem_append.mp hmem with hmem' | hmem'
                  · exact hl c hmem'
                  · rw [List.mem_singleton.mp hmem']
                    simp [Chat.ownerTypeString, Chat.turnType, hmode]
                · intro c hcur
                  rw [Option.some.injEq] at hcur
                  rw [← hcur]
                  simp [Chat.ownerTypeString, Chat.turnType, hmode]
            | false =>
                have hstep : Chat.step st (Chat.Event.createConv false data) =
                    { st with error := "Failed to create new conversation" } := by
                  simp [Chat.step, hb]
                rw [hstep]
                exact ⟨fun c hmem => hl c hmem, fun c hcur => hc c hcur⟩
  | selectConv conv =>
      by_cases hmem : conv ∈ st.conversations
      · have hstep : Chat.step st (Chat.Event.selectConv conv) =
            { st with
              currentConversation := some conv
              messages := conv.msgs } := by
          simp [Chat.step, hmem]
        rw [hstep]
        constructor
        · intro c hcm
          exact hl c hcm
        · intro c hcur
          rw [Option.some.injEq] at hcur
          rw [← hcur]
          exact hl conv hmem
      · have hstep : Chat.step st (Chat.Event.selectConv conv) = st := by
          simp [Chat.step, hmem]
        rw [hstep]
        exact ⟨hl, hc⟩
  | setInput s =>
      exact ⟨fun c hcm => hl c hcm, fun c hcur => hc c hcur⟩
  | submitSend resp =>
      obtain ⟨_, _, _, hconvs, hcur'⟩ := sendMessage_frame st resp
      constructor
      · intro c hcm
        simp only [Chat.step] at hcm ⊢
        rw [hconvs] at hcm
        rw [turnType_sendMessage]
        exact hl c hcm
      · intro c hcur
        simp only [Chat.step] at hcur ⊢
        rw [hcur'] at hcur
        rw [turnType_sendMessage]
        exact hc c hcur

/-- The routing invariant holds in every reachable state. -/
lemma chat_inv_run (evs : List Chat.Event) : Chat.Inv (Chat.run evs) := by
  have hinit : Chat.Inv Chat.initState := by
    constructor
    · intro c hmem
      simp [Chat.initState] at hmem
    · intro c hcur
      simp [Chat.initState] at hcur
  have hstep : ∀ (l : List Chat.Event) (st : Chat.ChatState),
      Chat.Inv st → Chat.Inv (l.foldl Chat.step st) := by
    intro l
    induction l with
    | nil => intro st hst; exact hst
    | cons e l ih =>
        intro st hst
        exact ih _ (chat_inv_step st e hst)
  exact hstep evs _ hinit

/-- C5: a conversation's owner is fixed at creation — agent mode with an
agent selected sends `agent_id` and no `communication_id`, communication
mode with a group selected sends `communication_id` and no `agent_id`,
never both — and in every reachable component state a turn on the current
conversation is routed with the `type` matching that owner kind. -/
theorem c5_owner_fixed_and_routing_matches :
    (∀ (st : Chat.ChatState) (a : Chat.Agent),
        st.chatMode = Chat.ChatMode.agent → st.selectedAgent = some a →
        ∃ t, Chat.createConvBody st =
            some (Chat.CreateConvBody.agentBody t a.id) ∧
          (Chat.CreateConvBody.agentBody t a.id).carriesAgentId = true ∧
          (Chat.CreateConvBody.agentBody t a.id).carriesCommId = false) ∧
    (∀ (st : Chat.ChatState) (g : Chat.Communication),
        st.chatMode = Chat.ChatMode.communication →
        st.selectedCommunication = some g →
        ∃ t, Chat.createConvBody st =
            some (Chat.CreateConvBody.commBody g.id t) ∧
          (Chat.CreateConvBody.commBody g.id t).carriesCommId = true ∧
          (Chat.CreateConvBody.commBody g.id t).carriesAgentId = false) ∧
    (∀ b : Chat.CreateConvBody,
        ¬(b.carriesAgentId = true ∧ b.carriesCommId = true)) ∧
    (∀ (evs : List Chat.Event) (c : Chat.Conv),
        (Chat.run evs).currentConversation = some c →
        Chat.turnType (Chat.run evs) = Chat.ownerTypeString c.owner) := by
  refine ⟨?_, ?_, ?_, ?_⟩
  · intro st a hmode hsel
    refine ⟨(toString (st.conversations.length + 1) |> fun n =>
      "Conversation " ++ n ++ " " ++ a.name), ?_, rfl, rfl⟩
    unfold Chat.createConvBody
    rw [if_neg (by simp [hsel])]
    rw [hmode, hsel]
  · intro st g hmode hsel
    refine ⟨(toString (st.conversations.length + 1) |> fun n =>
      "Conversation " ++ n ++ " " ++ g.name), ?_, rfl, rfl⟩
    unfold Chat.createConvBody
    rw [if_neg (by simp [hsel])]
    rcases hsa : st.selectedAgent with _ | a <;> rw [hmode, hsel]
  · intro b hcontra
    cases b <;> simp [Chat.CreateConvBody.carriesAgentId,
      Chat.CreateConvBody.carriesCommId] at hcontra
  · intro evs c hcur
    exact ((chat_inv_run evs).2 c hcur).symm

/-- Witness for C5: concrete creation in agent mode and a concrete
two-event trace (select agent 1, create a conversation) whose turn routes
as an agent turn. -/
theorem c5_witness :
    (∃ t, Chat.createConvBody
        { Chat.initState with
            selectedAgent := some { id := 1, name := "A" } } =
          some (Chat.CreateConvBody.agentBody t 1) ∧
        (Chat.CreateConvBody.agentBody t 1).carriesAgentId = true ∧
        (Chat.CreateConvBody.agentBody t 1).carriesCommId = false) ∧
    Chat.turnType (Chat.run
        [Chat.Event.selectAgent (some { id := 1, name := "A" }) [],
         Chat.Event.createConv true { id := "cv1", title := "t" }]) =
      Chat.ownerTypeString Chat.OwnerKind.agent :=
  ⟨c5_owner_fixed_and_routing_matches.1
      { Chat.initState with selectedAgent := some { id := 1, name := "A" } }
      { id := 1, name := "A" } rfl rfl,
   c5_owner_fixed_and_routing_matches.2.2.2
      [Chat.Event.selectAgent (some { id := 1, name := "A" }) [],
       Chat.Event.createConv true { id := "cv1", title := "t" }]
      { id := "cv1", title := "t", msgs := [],
        owner := Chat.OwnerKind.agent }
      (by decide)⟩

end RagApp
